import Mathlib

/-!
Verification of the spotify-listening-history-app pipeline:
a shallow embedding of the Fetcher lambda (`get_recently_played.py`,
in both its standalone and packaged variants), the ETL Transformer lambda
(`perform_etl.py`), the retry/backoff decorator, and the one-time OAuth
flow (`auth_flow.py`), together with theorems about the specified
contracts.
-/

namespace Spotify

/-! ## Errors

Python exceptions relevant to the embedded code paths:
`botocore.exceptions.ClientError` (carrying `response.Error.Code`),
`requests.exceptions.HTTPError` (carrying `response.status_code`),
plus `ValueError`, `KeyError`, bare `Exception`, and `NameError`. -/

inductive PyError where
  | clientError (code : String)
  | httpError (status : Nat)
  | valueError (msg : String)
  | keyError (msg : String)
  | exception (msg : String)
  | nameError (msg : String)
deriving DecidableEq, Repr

/-- Embeds `is_retryable_exception` (get_recently_played.py lines 61-71):
a `ClientError` is retryable iff its code is `InternalServerError`; an
`HTTPError` is retryable iff its status is 429, 500, 502, 503 or 504;
anything else is not retryable. -/
def is_retryable_exception : PyError → Bool
  | .clientError code => code == "InternalServerError"
  | .httpError status => [429, 500, 502, 503, 504].contains status
  | _ => false

/-- Outcome of one attempt of a wrapped operation: a normal return or a
raised exception. -/
inductive CallResult (α : Type) where
  | ok (a : α)
  | exn (e : PyError)
deriving DecidableEq, Repr

/-- Embeds the retry loop of `backoff.on_exception` as configured by
`backoff_on_client_error` (get_recently_played.py lines 74-100):
`tried` attempts have already been made, `retriesLeft` counts the retries
still allowed (max_tries = tried + retriesLeft + 1 at the start).
The attempt outcomes are given by `f`, indexed by attempt number.
Returns the final result together with the total number of attempts made.
A raised exception stops the loop when the giveup predicate holds
(not retryable) or when no retries are left; the final exception is
re-raised. -/
def backoffGo (retryable : PyError → Bool) (f : Nat → CallResult α) :
    Nat → Nat → Except PyError α × Nat
  | tried, retriesLeft =>
    match f tried with
    | .ok a => (.ok a, tried + 1)
    | .exn e =>
      match retriesLeft with
      | 0 => (.error e, tried + 1)
      | n + 1 =>
        if retryable e then backoffGo retryable f (tried + 1) n
        else (.error e, tried + 1)

/-- Embeds `backoff_on_client_error`: wraps an operation with
`backoff.expo`, `max_tries=5`, giving up when `is_retryable_exception`
is false. 5 total tries = the first attempt plus at most 4 retries. -/
def backoff_on_client_error (f : Nat → CallResult α) : Except PyError α × Nat :=
  backoffGo is_retryable_exception f 0 4

/-! ## Track length conversion -/

/-- Zero-padding to a minimum width of two digits, as the Python
format spec `{n:02}` does for a non-negative integer. -/
def padTwo (n : Nat) : String :=
  if n < 10 then "0" ++ toString n else toString n

/-- Embeds `milliseconds_to_mmss` (perform_etl.py lines 35-42):
raises `ValueError` for a non-positive length, otherwise divides by 1000
to get total seconds, takes `// 60` for the minutes and `% 60` for the
seconds, and formats both zero-padded to two digits.  (Python computes
with float division then truncates with `int`; for realistic magnitudes
this equals exact integer floor division, which is what we embed.) -/
def milliseconds_to_mmss (track_length : Int) : Except PyError String :=
  if track_length ≤ 0 then
    .error (.valueError "Track length must be greater than 0 seconds")
  else
    let totalSeconds := track_length.toNat / 1000
    let minutes := totalSeconds / 60
    let seconds := totalSeconds % 60
    .ok (padTwo minutes ++ ":" ++ padTwo seconds)

/-! ## Calendar and timezone model

`convert_utc_to_cst` (perform_etl.py lines 26-32) parses a UTC string
with `strptime` with format `%Y-%m-%dT%H:%M:%S.%fZ`, attaches the UTC zone, converts
with `astimezone` to `pytz.timezone America/Chicago` and formats with
`strftime` with format `%Y-%m-%dT%H:%M:%S`.  We embed the Gregorian calendar and the
tzdata America/Chicago rule for years ≥ 2007 (DST from 2:00 local on the
second Sunday of March, i.e. 08:00 UTC, to 2:00 local daylight time on
the first Sunday of November, i.e. 07:00 UTC; offsets UTC-5 in DST,
UTC-6 otherwise), which is the rule pytz applies on the dates the
pipeline handles. -/

def isLeap (y : Nat) : Bool :=
  (y % 4 == 0 && y % 100 != 0) || y % 400 == 0

def daysInMonth (y m : Nat) : Nat :=
  if m = 2 then (if isLeap y then 29 else 28)
  else if m = 4 ∨ m = 6 ∨ m = 9 ∨ m = 11 then 30
  else 31

def yearLen (y : Nat) : Nat := if isLeap y then 366 else 365

/-- Number of leap years in the interval [1970, y). -/
def leapYearsSinceEpoch (y : Nat) : Nat :=
  (y - 1) / 4 + (y - 1) / 400 - (y - 1) / 100 - 477

/-- Days in year `y` strictly before month `m`. -/
def daysBeforeMonth (y m : Nat) : Nat :=
  ((List.range (m - 1)).map (fun i => daysInMonth y (i + 1))).sum

/-- Days since 1970-01-01 of the civil date `y-m-d` (valid for `y ≥ 1970`). -/
def daysFromCivil (y m d : Nat) : Nat :=
  365 * (y - 1970) + leapYearsSinceEpoch y + daysBeforeMonth y m + (d - 1)

/-- Fuel-driven year scan: from year `y`, consume whole years from the
day count `doy` until it falls inside a year. -/
def civilYearGo : Nat → Nat → Nat → Nat × Nat
  | 0, y, doy => (y, doy)
  | fuel + 1, y, doy =>
    if doy < yearLen y then (y, doy)
    else civilYearGo fuel (y + 1) (doy - yearLen y)

/-- Fuel-driven month scan inside year `y`: from month `m`, consume whole
months from the zero-based day-of-year until it falls inside a month;
returns the month and the one-based day. -/
def monthDayGo (y : Nat) : Nat → Nat → Nat → Nat × Nat
  | 0, m, doy => (m, doy + 1)
  | fuel + 1, m, doy =>
    if doy < daysInMonth y m then (m, doy + 1)
    else monthDayGo y fuel (m + 1) (doy - daysInMonth y m)

/-- Civil date `(y, m, d)` of a day count since 1970-01-01. -/
def civilFromDays (days : Nat) : Nat × Nat × Nat :=
  let yd := civilYearGo (days + 1) 1970 days
  let md := monthDayGo yd.1 11 1 yd.2
  (yd.1, md.1, md.2)

/-- Day of week of a day count since the epoch, 0 = Sunday
(1970-01-01 was a Thursday). -/
def dayOfWeek (days : Nat) : Nat := (days + 4) % 7

/-- Day of month of the second Sunday of March in year `y`. -/
def secondSundayOfMarch (y : Nat) : Nat :=
  1 + (7 - dayOfWeek (daysFromCivil y 3 1)) % 7 + 7

/-- Day of month of the first Sunday of November in year `y`. -/
def firstSundayOfNovember (y : Nat) : Nat :=
  1 + (7 - dayOfWeek (daysFromCivil y 11 1)) % 7

/-- UTC epoch second at which DST starts in year `y` in America/Chicago
(2:00 CST on the second Sunday of March = 08:00 UTC). -/
def dstStartUtc (y : Nat) : Nat :=
  daysFromCivil y 3 (secondSundayOfMarch y) * 86400 + 8 * 3600

/-- UTC epoch second at which DST ends in year `y` in America/Chicago
(2:00 CDT on the first Sunday of November = 07:00 UTC). -/
def dstEndUtc (y : Nat) : Nat :=
  daysFromCivil y 11 (firstSundayOfNovember y) * 86400 + 7 * 3600

/-- Seconds west of UTC for America/Chicago at UTC epoch second `t`:
5 hours during DST, 6 hours otherwise. -/
def chicagoUtcOffset (t : Nat) : Nat :=
  let y := (civilFromDays (t / 86400)).1
  if dstStartUtc y ≤ t ∧ t < dstEndUtc y then 5 * 3600 else 6 * 3600

/-! ### String parsing and formatting -/

/-- Splitting a character list at every occurrence of `c`, as the Python
`str.split` on a dash and `strptime` field separation do. -/
def splitOnChar (c : Char) : List Char → List (List Char)
  | [] => [[]]
  | x :: xs =>
    match splitOnChar c xs with
    | [] => [[]]
    | h :: t => if x = c then [] :: h :: t else (x :: h) :: t

def digitsToNatGo : List Char → Nat → Option Nat
  | [], acc => some acc
  | ch :: cs, acc =>
    if ch.isDigit then digitsToNatGo cs (acc * 10 + (ch.toNat - 48)) else none

/-- Parses a non-empty all-digit character list as a natural number. -/
def digitsToNat? : List Char → Option Nat
  | [] => none
  | ch :: cs => digitsToNatGo (ch :: cs) 0

/-- Embeds `datetime.strptime utc_string` with format `%Y-%m-%dT%H:%M:%S.%fZ`:
returns `(year, month, day, hour, minute, second)`, or `none` (Python: a
raised `ValueError`) when the string does not match the format. -/
def parseUtcTimestamp (s : String) : Option (Nat × Nat × Nat × Nat × Nat × Nat) :=
  match splitOnChar 'T' s.data with
  | [datePart, timePart] =>
    match splitOnChar '-' datePart with
    | [ys, ms, ds] =>
      match splitOnChar ':' timePart with
      | [hs, mins, secFrac] =>
        match splitOnChar '.' secFrac with
        | [ss, fracPart] =>
          match fracPart.reverse with
          | 'Z' :: fracRev =>
            match digitsToNat? ys, digitsToNat? ms, digitsToNat? ds,
                  digitsToNat? hs, digitsToNat? mins, digitsToNat? ss,
                  digitsToNat? fracRev.reverse with
            | some y, some mo, some d, some h, some mi, some sec, some _ =>
              some (y, mo, d, h, mi, sec)
            | _, _, _, _, _, _, _ => none
          | _ => none
        | _ => none
      | _ => none
    | _ => none
  | _ => none

/-- Embeds `strftime` with format `%Y-%m-%dT%H:%M:%S`. -/
def formatLocalTimestamp (y mo d h mi s : Nat) : String :=
  toString y ++ "-" ++ padTwo mo ++ "-" ++ padTwo d ++ "T" ++
    padTwo h ++ ":" ++ padTwo mi ++ ":" ++ padTwo s

/-- Embeds `convert_utc_to_cst` (perform_etl.py lines 26-32): parse the
UTC string, convert the instant to America/Chicago local time, format.
`none` models the `ValueError` `strptime` raises on a malformed input. -/
def convert_utc_to_cst (utc_string : String) : Option String :=
  match parseUtcTimestamp utc_string with
  | none => none
  | some (y, mo, d, h, mi, s) =>
    let t := daysFromCivil y mo d * 86400 + h * 3600 + mi * 60 + s
    let localT := t - chicagoUtcOffset t
    let cd := civilFromDays (localT / 86400)
    let rem := localT % 86400
    some (formatLocalTimestamp cd.1 cd.2.1 cd.2.2 (rem / 3600) (rem % 3600 / 60) (rem % 60))

/-! ## ETL data model

The raw Spotify play event shape consumed by `perform_etl`
(perform_etl.py lines 55-70), restricted to the fields the code reads. -/

structure RawAlbum where
  name : String
  release_date : String
deriving DecidableEq, Repr

structure RawArtist where
  name : String
deriving DecidableEq, Repr

structure RawTrack where
  uri : String
  album : RawAlbum
  artists : List RawArtist
  duration_ms : Int
  name : String
  external_url_spotify : String
  popularity : Int
deriving DecidableEq, Repr

structure RawItem where
  track : RawTrack
  played_at : String
deriving DecidableEq, Repr

/-- The normalized track record value built by `perform_etl` for one raw
event (everything except the dictionary key `track_uri`). -/
structure TrackInfo where
  album : String
  release_date : String
  artists : List String
  track_length : String
  track_name : String
  track_url : String
  track_popularity : Int
  played_at : String
deriving DecidableEq, Repr

/-- The projection of one raw event into a `TrackInfo`, evaluating the
field expressions of the dict literal in perform_etl.py lines 60-69 in
order: `milliseconds_to_mmss` raises on a non-positive duration and
`convert_utc_to_cst` raises on a malformed timestamp. -/
def projectItem (item : RawItem) : Except PyError TrackInfo :=
  match milliseconds_to_mmss item.track.duration_ms with
  | .error e => .error e
  | .ok len =>
    match convert_utc_to_cst item.played_at with
    | none => .error (.valueError "time data does not match format")
    | some playedLocal =>
      .ok { album := item.track.album.name
            release_date := item.track.album.release_date
            artists := item.track.artists.map (fun a => a.name)
            track_length := len
            track_name := item.track.name
            track_url := item.track.external_url_spotify
            track_popularity := item.track.popularity
            played_at := playedLocal }

/-- Python dict assignment `d[k] = v` on an insertion-ordered dictionary
represented as an association list: an existing key keeps its position
and gets the new value, a new key is appended at the end. -/
def dictUpsert (d : List (String × TrackInfo)) (k : String) (v : TrackInfo) :
    List (String × TrackInfo) :=
  if d.any (fun p => p.1 == k) then
    d.map (fun p => if p.1 == k then (k, v) else p)
  else d ++ [(k, v)]

/-- The loop of `perform_etl`: processes raw events in list order,
keying the intermediate dictionary by `item.track.uri`. -/
def performEtlGo (acc : List (String × TrackInfo)) :
    List RawItem → Except PyError (List (String × TrackInfo))
  | [] => .ok acc
  | item :: rest =>
    match projectItem item with
    | .error e => .error e
    | .ok info => performEtlGo (dictUpsert acc item.track.uri info) rest

/-- Embeds `perform_etl` (perform_etl.py lines 55-70). -/
def perform_etl (json_data : List RawItem) : Except PyError (List (String × TrackInfo)) :=
  performEtlGo [] json_data

/-! ## Partitioning -/

/-- Embeds `track_info.played_at.split` on a dash, index 0. -/
def playedAtYear (playedAt : String) : String :=
  ⟨((splitOnChar '-' playedAt.data).getD 0 [])⟩

/-- Embeds `track_info.played_at.split` on a dash, index 1 (defaulting where Python
would raise `IndexError`; the theorems only use it on timestamps with at
least two components). -/
def playedAtMonth (playedAt : String) : String :=
  ⟨((splitOnChar '-' playedAt.data).getD 1 [])⟩

abbrev PartKey := String × String

/-- The record appended into a partition bucket:
the dict of `track_id` plus all `track_info` fields. -/
structure TrackRecord where
  track_id : String
  info : TrackInfo
deriving DecidableEq, Repr

/-- The (year, month) bucket a record belongs to. -/
def recordKey (r : TrackRecord) : PartKey :=
  (playedAtYear r.info.played_at, playedAtMonth r.info.played_at)

/-- One iteration of the loop of `partition_spotify_data`: computes the
(year, month) key of the entry and appends the record to that key
bucket, creating the bucket if absent (Python dict of lists, insertion
ordered). -/
def addToPartitions (ps : List (PartKey × List TrackRecord))
    (kv : String × TrackInfo) : List (PartKey × List TrackRecord) :=
  if ps.any (fun p => p.1 == recordKey ⟨kv.1, kv.2⟩) then
    ps.map (fun p =>
      if p.1 == recordKey ⟨kv.1, kv.2⟩ then (p.1, p.2 ++ [⟨kv.1, kv.2⟩]) else p)
  else ps ++ [(recordKey ⟨kv.1, kv.2⟩, [⟨kv.1, kv.2⟩])]

/-- Embeds `partition_spotify_data` (perform_etl.py lines 73-84). -/
def partition_spotify_data (track_data : List (String × TrackInfo)) :
    List (PartKey × List TrackRecord) :=
  track_data.foldl addToPartitions []

/-- The object key built in the write loop of the ETL `lambda_handler`
(perform_etl.py lines 135-138). -/
def partitionS3Key (year month fileName : String) : String :=
  "processed/year=" ++ year ++ "/month=" ++ month ++ "/" ++ fileName

/-! ## Fetcher lambda handlers

The outbound calls of the handlers (parameter store, token exchange, streaming
API, object storage) are embedded as an environment giving the eventual outcome of each call
(after the retry wrapper has run); the handler model
threads these outcomes in source order and records every attempted
`put_object` / `put_parameter` call in a trace. -/

structure StatusBody where
  statusCode : Nat
  body : String
deriving DecidableEq, Repr

/-- The token-endpoint JSON body: `access_token` / `refresh_token`
fields, absent modelled as `none`. -/
structure TokenResponse where
  access_token : Option String
  refresh_token : Option String
deriving DecidableEq, Repr

structure FetchEnv where
  /-- Outcome of `get_parameter "spotify_refresh_token"`. -/
  refreshTokenParam : Except PyError String
  /-- Outcome of `get_parameter "spotify_last_fetched_time"`. -/
  lastFetchedParam : Except PyError String
  /-- Outcome of `request_access_token "refresh_auth_token" ...`. -/
  tokenExchange : Except PyError TokenResponse
  /-- Outcome of the recently-played GET: the `items` list on success. -/
  recentlyPlayedItems : Except PyError (List RawItem)
  /-- Outcome of `write_to_s3`. -/
  s3WriteResult : Except PyError Unit
  /-- Outcome of `create_or_update_parameter "spotify_refresh_token" ...`. -/
  putRefreshResult : Except PyError Unit
  /-- Outcome of `create_or_update_parameter "spotify_last_fetched_time" ...`. -/
  putTimestampResult : Except PyError Unit
  /-- `datetime.datetime.now cst_timezone` formatted as `%Y%m%d%H%M%S`. -/
  currentTimestampStr : String
  /-- `get_current_unix_timestamp_milliseconds()`. -/
  nowMillis : String
deriving Repr

structure FetchOutcome where
  /-- `.ok` is the returned status dict, `.error` a propagated exception. -/
  result : Except PyError StatusBody
  /-- Attempted S3 `put_object` calls: (object key, items written). -/
  s3Writes : List (String × List RawItem)
  /-- Attempted SSM `put_parameter` calls: (name, value). -/
  paramPuts : List (String × String)
deriving Repr

/-- Embeds the packaged Fetcher `lambda_handler`
(get_recently_played/get_recently_played.py lines 165-272).  Every
`except` block in this variant logs and re-raises, so failures propagate
as exceptions; only the success (200) and empty-result (204) paths
return a status dict. -/
def fetch_lambda_handler (env : FetchEnv) : FetchOutcome :=
  match env.refreshTokenParam with
  | .error e => ⟨.error e, [], []⟩
  | .ok _ =>
  match env.lastFetchedParam with
  | .error e => ⟨.error e, [], []⟩
  | .ok _ =>
  match env.tokenExchange with
  | .error e => ⟨.error e, [], []⟩
  | .ok tokens =>
  -- `access_token = tokens.json().get("access_token")`;
  -- `refresh_token = tokens.json().get("refresh_token")` rebinds the
  -- variable that held the stored refresh token.
  if tokens.access_token.getD "" = "" then
    ⟨.error (.exception "No access token found in response."), [], []⟩
  else
  match env.recentlyPlayedItems with
  | .error e => ⟨.error e, [], []⟩
  | .ok items =>
  if items ≠ [] then
    let objectPath := "raw/recently_played_tracks_" ++ env.currentTimestampStr ++ ".json"
    let writes := [(objectPath, items)]
    match env.s3WriteResult with
    | .error e => ⟨.error e, writes, []⟩
    | .ok _ =>
      -- `if refresh_token:` — falsy for an absent or empty new token.
      if tokens.refresh_token.getD "" ≠ "" then
        let puts := [("spotify_refresh_token", tokens.refresh_token.getD "")]
        match env.putRefreshResult with
        | .error e => ⟨.error e, writes, puts⟩
        | .ok _ =>
          match env.putTimestampResult with
          | .error e => ⟨.error e, writes, puts ++ [("spotify_last_fetched_time", env.nowMillis)]⟩
          | .ok _ =>
            ⟨.ok ⟨200, "Execution successful"⟩, writes,
              puts ++ [("spotify_last_fetched_time", env.nowMillis)]⟩
      else
        match env.putTimestampResult with
        | .error e => ⟨.error e, writes, [("spotify_last_fetched_time", env.nowMillis)]⟩
        | .ok _ =>
          ⟨.ok ⟨200, "Execution successful"⟩, writes,
            [("spotify_last_fetched_time", env.nowMillis)]⟩
  else
    ⟨.ok ⟨204, "No recently played tracks found."⟩, [], []⟩

/-- A loose rendering of the Python `str e`, used only to build response
bodies in the standalone Fetcher. -/
def pyErrStr : PyError → String
  | .clientError code => "ClientError: " ++ code
  | .httpError status => "HTTPError: " ++ toString status
  | .valueError msg => msg
  | .keyError msg => msg
  | .exception msg => msg
  | .nameError msg => msg

/-- Embeds the standalone Fetcher `lambda_handler`
(get_recently_played.py lines 244-377).  This variant catches
`botocore.exceptions.ClientError` around the parameter-store and S3
calls and `requests.exceptions.HTTPError` around the HTTP calls and
turns them into 500 responses; a missing access token is a 404
response; exceptions of any other class are not caught and propagate. -/
def fetch_lambda_handler_v1 (env : FetchEnv) : FetchOutcome :=
  match env.refreshTokenParam with
  | .error (.clientError c) =>
    ⟨.ok ⟨500, "Failed to retrieve parameters from Parameter Store: " ++ pyErrStr (.clientError c)⟩, [], []⟩
  | .error e => ⟨.error e, [], []⟩
  | .ok _ =>
  match env.lastFetchedParam with
  | .error (.clientError c) =>
    ⟨.ok ⟨500, "Failed to retrieve parameters from Parameter Store: " ++ pyErrStr (.clientError c)⟩, [], []⟩
  | .error e => ⟨.error e, [], []⟩
  | .ok _ =>
  match env.tokenExchange with
  | .error (.httpError s) =>
    ⟨.ok ⟨500, "Failed to refresh access token: " ++ pyErrStr (.httpError s)⟩, [], []⟩
  | .error e => ⟨.error e, [], []⟩
  | .ok tokens =>
  if tokens.access_token.getD "" = "" then
    ⟨.ok ⟨404, "No access token found in response."⟩, [], []⟩
  else
  match env.recentlyPlayedItems with
  | .error (.httpError s) =>
    ⟨.ok ⟨500, "Failed to fetch recently played tracks: " ++ pyErrStr (.httpError s)⟩, [], []⟩
  | .error e => ⟨.error e, [], []⟩
  | .ok items =>
  if items ≠ [] then
    let objectPath := "raw/recently_played_tracks_" ++ env.currentTimestampStr ++ ".json"
    let writes := [(objectPath, items)]
    match env.s3WriteResult with
    | .error (.clientError c) =>
      ⟨.ok ⟨500, "Failed to write data to S3: " ++ pyErrStr (.clientError c)⟩, writes, []⟩
    | .error e => ⟨.error e, writes, []⟩
    | .ok _ =>
      if tokens.refresh_token.getD "" ≠ "" then
        let puts := [("spotify_refresh_token", tokens.refresh_token.getD "")]
        match env.putRefreshResult with
        | .error (.clientError c) =>
          ⟨.ok ⟨500, "Failed to update parameters in Parameter Store: " ++ pyErrStr (.clientError c)⟩, writes, puts⟩
        | .error e => ⟨.error e, writes, puts⟩
        | .ok _ =>
          match env.putTimestampResult with
          | .error (.clientError c) =>
            ⟨.ok ⟨500, "Failed to update parameters in Parameter Store: " ++ pyErrStr (.clientError c)⟩, writes,
              puts ++ [("spotify_last_fetched_time", env.nowMillis)]⟩
          | .error e => ⟨.error e, writes, puts ++ [("spotify_last_fetched_time", env.nowMillis)]⟩
          | .ok _ =>
            ⟨.ok ⟨200, "Execution successful"⟩, writes,
              puts ++ [("spotify_last_fetched_time", env.nowMillis)]⟩
      else
        match env.putTimestampResult with
        | .error (.clientError c) =>
          ⟨.ok ⟨500, "Failed to update parameters in Parameter Store: " ++ pyErrStr (.clientError c)⟩, writes,
            [("spotify_last_fetched_time", env.nowMillis)]⟩
        | .error e => ⟨.error e, writes, [("spotify_last_fetched_time", env.nowMillis)]⟩
        | .ok _ =>
          ⟨.ok ⟨200, "Execution successful"⟩, writes,
            [("spotify_last_fetched_time", env.nowMillis)]⟩
  else
    ⟨.ok ⟨204, "No recently played tracks found."⟩, [], []⟩

/-! ## ETL lambda handler -/

/-- One `Records[i]` entry of the S3 notification, reduced to the two
fields the code reads with defaulted `.get` chains
(`s3.bucket.name` and `s3.object.key`, default the empty string). -/
structure S3Record where
  bucketName : String
  objectKey : String
deriving DecidableEq, Repr

structure S3Event where
  records : List S3Record
deriving DecidableEq, Repr

/-- Embeds `get_bucket_and_object` (perform_etl.py lines 45-52):
bucket of the first record and key when `Records` is non-empty, otherwise a
raised `Exception`. -/
def get_bucket_and_object (event : S3Event) : Except PyError (String × String) :=
  match event.records with
  | [] => .error (.exception "No data present in event payload")
  | r :: _ => .ok (r.bucketName, r.objectKey)

structure EtlEnv where
  /-- Outcome of `read_json_from_s3` on the triggering object. -/
  readResult : Except PyError (List RawItem)
  /-- The `tracks_<uuid4>.json` file name drawn for each partition. -/
  fileNames : PartKey → String

structure EtlOutcome where
  /-- `.ok` is the returned status dict, `.error` a propagated exception. -/
  result : Except PyError StatusBody
  /-- Attempted S3 `get_object` calls: (bucket, key). -/
  s3Reads : List (String × String)
  /-- Attempted S3 `put_object` calls: (bucket, key, records). -/
  s3Writes : List (String × String × List TrackRecord)

/-- Embeds the ETL `lambda_handler` (perform_etl.py lines 116-143):
extract bucket and key, raise `KeyError` when either is empty, read the
raw object, normalize, partition, and write one uniquely named object
per partition under `processed/year=<Y>/month=<M>/`. -/
def etl_lambda_handler (env : EtlEnv) (event : S3Event) : EtlOutcome :=
  match get_bucket_and_object event with
  | .error e => ⟨.error e, [], []⟩
  | .ok (bucket, obj) =>
    if bucket = "" then
      ⟨.error (.keyError "No bucket name provided in S3 notification event"), [], []⟩
    else if obj = "" then
      ⟨.error (.keyError "No object name provided in S3 notification event"), [], []⟩
    else
      match env.readResult with
      | .error e => ⟨.error e, [(bucket, obj)], []⟩
      | .ok items =>
        match perform_etl items with
        | .error e => ⟨.error e, [(bucket, obj)], []⟩
        | .ok processed =>
          let parts := partition_spotify_data processed
          ⟨.ok ⟨200, "Execution successful"⟩, [(bucket, obj)],
            parts.map (fun p => (bucket, partitionS3Key p.1.1 p.1.2 (env.fileNames p.1), p.2))⟩

/-! ## OAuth token exchange and one-time auth flow -/

structure AuthConfig where
  clientId : String
  clientSecret : String
  /-- `os.getenv "REDIRECT_URI"`: `none` when unset. -/
  redirectUri : Option String
deriving Repr

structure TokenRequestOutcome where
  result : Except PyError TokenResponse
  /-- Form payloads of the `requests.post` calls actually made. -/
  httpPosts : List (List (String × String))
deriving Repr

/-- Embeds `request_access_token` (both Fetcher variants; packaged
variant lines 134-162): builds the Basic-auth header, then selects the
grant payload by `authorization_type`; any other value raises
`ValueError` before any HTTP request is made.  `postResult` is the
outcome of the one outbound POST when it happens
(`raise_for_status` turning a non-2xx into an `HTTPError`). -/
def request_access_token (cfg : AuthConfig) (postResult : Except PyError TokenResponse)
    (authorization_type auth_token : String) : TokenRequestOutcome :=
  if authorization_type = "initial_auth" then
    let data := [("grant_type", "authorization_code"), ("code", auth_token),
                 ("redirect_uri", cfg.redirectUri.getD "")]
    ⟨postResult, [data]⟩
  else if authorization_type = "refresh_auth_token" then
    let data := [("grant_type", "refresh_token"), ("refresh_token", auth_token)]
    ⟨postResult, [data]⟩
  else
    ⟨.error (.valueError "Invalid authorization type. Must be \"initial_auth\" or \"refresh_auth_token\"."), []⟩

/-- Result of one `/callback` request in the one-time auth flow. -/
inductive CallbackResult where
  /-- A raised `fastapi.HTTPException`. -/
  | httpException (status : Nat) (detail : String)
  /-- Any other propagated Python exception. -/
  | pyError (e : PyError)
  | success (msg : String)
deriving DecidableEq, Repr

/-- Embeds the `/login` route (auth_flow.py lines 91-101): stores the
freshly generated state and redirects.  Returns the new module-level
`stored_state`. -/
def login (generatedState : String) (_storedState : Option String) : Option String :=
  some generatedState

/-- Embeds the `/callback` route (auth_flow.py lines 104-146) as a
function of the module-level `stored_state` and the query parameters,
returning the result together with the new `stored_state`.  After the
CSRF check passes, `stored_state` is set to `None` before the code is
exchanged.  On a successful exchange the code then evaluates
`parameterStoreClient(region=...)` (line 122), a name that is never
defined (the import is `ParameterStoreClient`), so it raises
`NameError`. -/
def callback (exchangeResult : Except PyError TokenResponse)
    (storedState : Option String) (code state : Option String) :
    CallbackResult × Option String :=
  -- `if not state or not code` treats `None` and the empty string as falsy.
  if state.getD "" = "" ∨ code.getD "" = "" then
    (.httpException 400 "Missing state or code", storedState)
  else if state ≠ storedState then
    (.httpException 400 "State mismatch, possible CSRF attack.", storedState)
  else
    match exchangeResult with
    | .error e => (.pyError e, none)
    | .ok tokens =>
      match tokens.access_token with
      | none => (.pyError (.keyError "access_token"), none)
      | some _ =>
        match tokens.refresh_token with
        | none => (.pyError (.keyError "refresh_token"), none)
        | some _ =>
          (.pyError (.nameError "name parameterStoreClient is not defined"), none)

/-! ## Error-class typing of the environment

The AWS SDK calls raise `botocore.exceptions.ClientError` and the HTTP
calls raise `requests.exceptions.HTTPError`; the standalone Fetcher
catches exactly these classes at its failure boundaries. -/

def isClientError (e : PyError) : Prop := ∃ c, e = .clientError c

def isHttpError (e : PyError) : Prop := ∃ s, e = .httpError s

/-- Every error the call can produce satisfies `P`. -/
def errorsWellTyped (P : PyError → Prop) (r : Except PyError α) : Prop :=
  ∀ e, r = .error e → P e

/-- Each outbound call of the Fetcher environment fails only with the
exception class the corresponding library raises. -/
def FetchEnvWellTyped (env : FetchEnv) : Prop :=
  errorsWellTyped isClientError env.refreshTokenParam ∧
  errorsWellTyped isClientError env.lastFetchedParam ∧
  errorsWellTyped isHttpError env.tokenExchange ∧
  errorsWellTyped isHttpError env.recentlyPlayedItems ∧
  errorsWellTyped isClientError env.s3WriteResult ∧
  errorsWellTyped isClientError env.putRefreshResult ∧
  errorsWellTyped isClientError env.putTimestampResult

/-! ## Sample data for witnesses -/

/-- A raw play event: 61.5 second track played 2023-07-04T18:30:15 UTC. -/
def sampleItemEarlier : RawItem :=
  ⟨⟨"spotify:track:1", ⟨"Album A", "2020-01-01"⟩, [⟨"Artist X"⟩], 61500,
    "Song One", "https://open.spotify.com/track/1", 10⟩,
   "2023-07-04T18:30:15.123Z"⟩

/-- A second play of the same track, later in the batch, with different
metadata values. -/
def sampleItemLater : RawItem :=
  ⟨⟨"spotify:track:1", ⟨"Album A", "2020-01-01"⟩, [⟨"Artist X"⟩], 61500,
    "Song One", "https://open.spotify.com/track/1", 20⟩,
   "2023-07-05T02:10:00.456Z"⟩

/-- A play of a different track. -/
def sampleItemOther : RawItem :=
  ⟨⟨"spotify:track:2", ⟨"Album B", "2021-05-05"⟩, [⟨"Artist Y"⟩], 185000,
    "Song Two", "https://open.spotify.com/track/2", 55⟩,
   "2023-08-01T12:00:00.000Z"⟩

/-- The normalized dictionary `perform_etl` produces on the sample batch
with a duplicated URI. -/
def sampleEtlDict : List (String × TrackInfo) :=
  (perform_etl [sampleItemEarlier, sampleItemLater]).toOption.getD []

/-- A normalized mapping with plays in two different months. -/
def sampleTrackData : List (String × TrackInfo) :=
  (perform_etl [sampleItemEarlier, sampleItemOther]).toOption.getD []

/-! ## Theorems for C1 and C3 -/

/-- C1: an operation wrapped by the retry decorator is re-invoked on
retryable errors (HTTP 429/500/502/503/504 or an `InternalServerError`
ClientError) up to a total of 5 attempts, after which the final error is
re-raised; a non-retryable error is re-raised after the first attempt
with no retry; in both cases the failure is propagated, never
swallowed. -/
theorem retry_wrapper_policy (es : Nat → PyError) :
    (is_retryable_exception (es 0) = false →
      backoff_on_client_error (fun i => CallResult.exn (es i) : Nat → CallResult Unit) =
        (.error (es 0), 1)) ∧
    ((∀ i, is_retryable_exception (es i) = true) →
      backoff_on_client_error (fun i => CallResult.exn (es i) : Nat → CallResult Unit) =
        (.error (es 4), 5)) := by
  constructor
  · intro h
    simp [backoff_on_client_error, backoffGo, h]
  · intro h
    simp [backoff_on_client_error, backoffGo, h 0, h 1, h 2, h 3]

/-- Witness for C1: a 403 is raised after exactly one attempt; a
persistent 500 is raised after exactly five attempts. -/
theorem retry_wrapper_policy_witness :
    backoff_on_client_error (fun _ => CallResult.exn (.httpError 403) : Nat → CallResult Unit) =
      (.error (.httpError 403), 1) ∧
    backoff_on_client_error (fun _ => CallResult.exn (.httpError 500) : Nat → CallResult Unit) =
      (.error (.httpError 500), 5) :=
  ⟨(retry_wrapper_policy (fun _ => .httpError 403)).1 (by decide),
   (retry_wrapper_policy (fun _ => .httpError 500)).2 (fun _ => by decide)⟩

/-- C3: for every positive duration `d` in milliseconds,
`milliseconds_to_mmss` returns minutes `⌊d / 60000⌋` and seconds
`⌊d / 1000⌋ % 60`, each zero-padded to at least two digits; for every
`d ≤ 0` it raises a `ValueError` instead of returning a default. -/
theorem milliseconds_to_mmss_correct (d : Int) :
    (0 < d → milliseconds_to_mmss d =
      .ok (padTwo (d.toNat / 60000) ++ ":" ++ padTwo (d.toNat / 1000 % 60))) ∧
    (d ≤ 0 → milliseconds_to_mmss d =
      .error (.valueError "Track length must be greater than 0 seconds")) := by
  constructor
  · intro h
    simp only [milliseconds_to_mmss, if_neg (not_le.mpr h)]
    have : d.toNat / 1000 / 60 = d.toNat / 60000 := by
      rw [Nat.div_div_eq_div_mul]
    rw [this]
  · intro h
    simp [milliseconds_to_mmss, h]

/-- Witness for C3: 61 500 ms is formatted as 01:01 (61500/60000 = 1
minute, 61 % 60 = 1 second), and 0 ms is a hard error. -/
theorem milliseconds_to_mmss_correct_witness :
    milliseconds_to_mmss 61500 = .ok (padTwo (61500 / 60000) ++ ":" ++ padTwo (61500 / 1000 % 60)) ∧
    milliseconds_to_mmss 0 =
      .error (.valueError "Track length must be greater than 0 seconds") :=
  ⟨(milliseconds_to_mmss_correct 61500).1 (by decide),
   (milliseconds_to_mmss_correct 0).2 (by decide)⟩

/-! ## Theorems for C8, C4, C6, C9, C10 -/

/-- C8: `convert_utc_to_cst` is a deterministic function of its input
string and is offset-correct across the fixed daylight-saving
transitions: 2023-03-12T08:00:00.000Z converts to 2023-03-12T03:00:00
and 2023-11-05T07:00:00.000Z converts to 2023-11-05T01:00:00. -/
theorem convert_utc_to_cst_dst_correct :
    convert_utc_to_cst "2023-03-12T08:00:00.000Z" = some "2023-03-12T03:00:00" ∧
    convert_utc_to_cst "2023-11-05T07:00:00.000Z" = some "2023-11-05T01:00:00" := by
  constructor <;> decide

/-- C4: when the recently-played response contains zero events, the
Fetcher performs no object-storage write and no token-store update (the
`spotify_last_fetched_time` watermark is untouched) and returns status
204. -/
theorem fetcher_zero_events_no_effects (env : FetchEnv) (rt ts : String)
    (tokens : TokenResponse) (a : String)
    (h1 : env.refreshTokenParam = .ok rt)
    (h2 : env.lastFetchedParam = .ok ts)
    (h3 : env.tokenExchange = .ok tokens)
    (h4 : tokens.access_token = some a) (h5 : a ≠ "")
    (h6 : env.recentlyPlayedItems = .ok []) :
    fetch_lambda_handler env =
      ⟨.ok ⟨204, "No recently played tracks found."⟩, [], []⟩ := by
  simp [fetch_lambda_handler, h1, h2, h3, h4, h5, h6]

/-- Witness for C4 at a concrete environment with an empty items list. -/
theorem fetcher_zero_events_no_effects_witness :
    fetch_lambda_handler
      ⟨.ok "rtok", .ok "1700000000000", .ok ⟨some "atok", some "rtok2"⟩,
       .ok [], .ok (), .ok (), .ok (), "20231105010000", "1700000400000"⟩ =
      ⟨.ok ⟨204, "No recently played tracks found."⟩, [], []⟩ :=
  fetcher_zero_events_no_effects _ "rtok" "1700000000000" ⟨some "atok", some "rtok2"⟩
    "atok" rfl rfl rfl rfl (by decide) rfl

/-- C6: a Transformer trigger event whose extracted bucket or key is
empty makes the handler raise a `KeyError` immediately, with no
object-storage read or write call. -/
theorem etl_empty_bucket_or_key_no_calls (env : EtlEnv) (event : S3Event)
    (b o : String) (hbo : get_bucket_and_object event = .ok (b, o))
    (h : b = "" ∨ o = "") :
    (∃ msg, (etl_lambda_handler env event).result = .error (.keyError msg)) ∧
    (etl_lambda_handler env event).s3Reads = [] ∧
    (etl_lambda_handler env event).s3Writes = [] := by
  by_cases hb : b = ""
  · subst hb
    refine ⟨⟨"No bucket name provided in S3 notification event", ?_⟩, ?_, ?_⟩ <;>
      simp [etl_lambda_handler, hbo]
  · have ho : o = "" := h.resolve_left hb
    subst ho
    refine ⟨⟨"No object name provided in S3 notification event", ?_⟩, ?_, ?_⟩ <;>
      simp [etl_lambda_handler, hbo, hb]

/-- Witness for C6 at a concrete notification with an empty bucket name. -/
theorem etl_empty_bucket_or_key_no_calls_witness :
    (∃ msg, (etl_lambda_handler ⟨.ok [], fun _ => "tracks_0.json"⟩
        ⟨[⟨"", "raw/recently_played_tracks_20230101000000.json"⟩]⟩).result =
      .error (.keyError msg)) ∧
    (etl_lambda_handler ⟨.ok [], fun _ => "tracks_0.json"⟩
        ⟨[⟨"", "raw/recently_played_tracks_20230101000000.json"⟩]⟩).s3Reads = [] ∧
    (etl_lambda_handler ⟨.ok [], fun _ => "tracks_0.json"⟩
        ⟨[⟨"", "raw/recently_played_tracks_20230101000000.json"⟩]⟩).s3Writes = [] :=
  etl_empty_bucket_or_key_no_calls ⟨.ok [], fun _ => "tracks_0.json"⟩
    ⟨[⟨"", "raw/recently_played_tracks_20230101000000.json"⟩]⟩
    "" "raw/recently_played_tracks_20230101000000.json" rfl (Or.inl rfl)

/-- C9: any `authorization_type` other than initial_auth or
refresh_auth_token makes `request_access_token` raise `ValueError`
before any outbound HTTP request is made. -/
theorem request_access_token_invalid_type (cfg : AuthConfig)
    (postResult : Except PyError TokenResponse) (authorization_type auth_token : String)
    (h1 : authorization_type ≠ "initial_auth")
    (h2 : authorization_type ≠ "refresh_auth_token") :
    (request_access_token cfg postResult authorization_type auth_token).httpPosts = [] ∧
    (request_access_token cfg postResult authorization_type auth_token).result =
      .error (.valueError
        "Invalid authorization type. Must be \"initial_auth\" or \"refresh_auth_token\".") := by
  constructor <;> simp [request_access_token, h1, h2]

/-- Witness for C9 at a concrete invalid mode string. -/
theorem request_access_token_invalid_type_witness :
    (request_access_token ⟨"cid", "csec", some "http://cb"⟩ (.ok ⟨some "a", none⟩)
      "client_credentials" "tok").httpPosts = [] ∧
    (request_access_token ⟨"cid", "csec", some "http://cb"⟩ (.ok ⟨some "a", none⟩)
      "client_credentials" "tok").result =
      .error (.valueError
        "Invalid authorization type. Must be \"initial_auth\" or \"refresh_auth_token\".") :=
  request_access_token_invalid_type ⟨"cid", "csec", some "http://cb"⟩ (.ok ⟨some "a", none⟩)
    "client_credentials" "tok" (by decide) (by decide)

/-- C10: a `/callback` that passes the CSRF state comparison clears the
stored state before exchanging the code, so a second `/callback`
presenting the same state value with no intervening `/login` fails the
comparison and is rejected with the 400 state-mismatch error. -/
theorem callback_state_single_use (ex1 ex2 : Except PyError TokenResponse)
    (s c c2 : String) (hs : s ≠ "") (hc : c ≠ "") (hc2 : c2 ≠ "") :
    (callback ex1 (some s) (some c) (some s)).2 = none ∧
    callback ex2 (callback ex1 (some s) (some c) (some s)).2 (some c2) (some s) =
      (.httpException 400 "State mismatch, possible CSRF attack.", none) := by
  have h1 : (callback ex1 (some s) (some c) (some s)).2 = none := by
    rcases ex1 with e | ⟨a, r⟩
    · simp [callback, hs, hc]
    · rcases a with _ | a <;> rcases r with _ | r <;> simp [callback, hs, hc]
  refine ⟨h1, ?_⟩
  rw [h1]
  simp [callback, hs, hc2]

/-- Witness for C10 at concrete state, code and exchange outcomes. -/
theorem callback_state_single_use_witness :
    (callback (.ok ⟨some "at", some "rt"⟩) (some "st1") (some "code1") (some "st1")).2 = none ∧
    callback (.ok ⟨some "at", some "rt"⟩)
        (callback (.ok ⟨some "at", some "rt"⟩) (some "st1") (some "code1") (some "st1")).2
        (some "code1") (some "st1") =
      (.httpException 400 "State mismatch, possible CSRF attack.", none) :=
  callback_state_single_use (.ok ⟨some "at", some "rt"⟩) (.ok ⟨some "at", some "rt"⟩)
    "st1" "code1" "code1" (by decide) (by decide) (by decide)

/-! ## Theorems for C5 -/

/-- C5 counterexample: at a concrete notification event with an empty
bucket name, the Transformer handler does not return a structured
status object: it propagates a `KeyError` to the caller. -/
theorem etl_handler_raises_not_status :
    (etl_lambda_handler ⟨.ok [], fun _ => "tracks_0.json"⟩
        ⟨[⟨"", "raw/data.json"⟩]⟩).result =
      .error (.keyError "No bucket name provided in S3 notification event") := rfl

/-- C5 amended: the standalone Fetcher handler returns a structured
status object on every invocation whose outbound calls fail only with
the exception classes it catches, and the code is always one of 200
(success), 204 (empty result), 404 (missing access token) or 500
(failure); the packaged Fetcher and the Transformer return structured
statuses only on their success and empty-result paths and re-raise
exceptions on failure paths. -/
theorem fetcher_v1_structured_status (env : FetchEnv) (hw : FetchEnvWellTyped env) :
    ∃ r : StatusBody, (fetch_lambda_handler_v1 env).result = .ok r ∧
      (r.statusCode = 200 ∨ r.statusCode = 204 ∨ r.statusCode = 404 ∨ r.statusCode = 500) := by
  obtain ⟨w1, w2, w3, w4, w5, w6, w7⟩ := hw
  rcases h1 : env.refreshTokenParam with e1 | rt
  · obtain ⟨c, rfl⟩ := w1 e1 h1
    exact ⟨⟨500, "Failed to retrieve parameters from Parameter Store: " ++ pyErrStr (.clientError c)⟩,
      by simp [fetch_lambda_handler_v1, h1], by simp⟩
  rcases h2 : env.lastFetchedParam with e2 | ts
  · obtain ⟨c, rfl⟩ := w2 e2 h2
    exact ⟨⟨500, "Failed to retrieve parameters from Parameter Store: " ++ pyErrStr (.clientError c)⟩,
      by simp [fetch_lambda_handler_v1, h1, h2], by simp⟩
  rcases h3 : env.tokenExchange with e3 | tokens
  · obtain ⟨st, rfl⟩ := w3 e3 h3
    exact ⟨⟨500, "Failed to refresh access token: " ++ pyErrStr (.httpError st)⟩,
      by simp [fetch_lambda_handler_v1, h1, h2, h3], by simp⟩
  by_cases ha : tokens.access_token.getD "" = ""
  · exact ⟨⟨404, "No access token found in response."⟩,
      by simp [fetch_lambda_handler_v1, h1, h2, h3, ha], by simp⟩
  rcases h4 : env.recentlyPlayedItems with e4 | items
  · obtain ⟨st, rfl⟩ := w4 e4 h4
    exact ⟨⟨500, "Failed to fetch recently played tracks: " ++ pyErrStr (.httpError st)⟩,
      by simp [fetch_lambda_handler_v1, h1, h2, h3, ha, h4], by simp⟩
  by_cases hi : items = []
  · exact ⟨⟨204, "No recently played tracks found."⟩,
      by simp [fetch_lambda_handler_v1, h1, h2, h3, ha, h4, hi], by simp⟩
  rcases h5 : env.s3WriteResult with e5 | u5
  · obtain ⟨c, rfl⟩ := w5 e5 h5
    exact ⟨⟨500, "Failed to write data to S3: " ++ pyErrStr (.clientError c)⟩,
      by simp [fetch_lambda_handler_v1, h1, h2, h3, ha, h4, hi, h5], by simp⟩
  by_cases hr : tokens.refresh_token.getD "" = ""
  · rcases h7 : env.putTimestampResult with e7 | u7
    · obtain ⟨c, rfl⟩ := w7 e7 h7
      exact ⟨⟨500, "Failed to update parameters in Parameter Store: " ++ pyErrStr (.clientError c)⟩,
        by simp [fetch_lambda_handler_v1, h1, h2, h3, ha, h4, hi, h5, hr, h7], by simp⟩
    · exact ⟨⟨200, "Execution successful"⟩,
        by simp [fetch_lambda_handler_v1, h1, h2, h3, ha, h4, hi, h5, hr, h7], by simp⟩
  · rcases h6 : env.putRefreshResult with e6 | u6
    · obtain ⟨c, rfl⟩ := w6 e6 h6
      exact ⟨⟨500, "Failed to update parameters in Parameter Store: " ++ pyErrStr (.clientError c)⟩,
        by simp [fetch_lambda_handler_v1, h1, h2, h3, ha, h4, hi, h5, hr, h6], by simp⟩
    rcases h7 : env.putTimestampResult with e7 | u7
    · obtain ⟨c, rfl⟩ := w7 e7 h7
      exact ⟨⟨500, "Failed to update parameters in Parameter Store: " ++ pyErrStr (.clientError c)⟩,
        by simp [fetch_lambda_handler_v1, h1, h2, h3, ha, h4, hi, h5, hr, h6, h7], by simp⟩
    · exact ⟨⟨200, "Execution successful"⟩,
        by simp [fetch_lambda_handler_v1, h1, h2, h3, ha, h4, hi, h5, hr, h6, h7], by simp⟩

/-- Witness for the amended C5 at a concrete all-successful environment. -/
theorem fetcher_v1_structured_status_witness :
    ∃ r : StatusBody,
      (fetch_lambda_handler_v1
        ⟨.ok "rtok", .ok "1700000000000", .ok ⟨some "atok", some "rtok2"⟩,
         .ok [sampleItemOther], .ok (), .ok (), .ok (),
         "20231105010000", "1700000400000"⟩).result = .ok r ∧
      (r.statusCode = 200 ∨ r.statusCode = 204 ∨ r.statusCode = 404 ∨ r.statusCode = 500) :=
  fetcher_v1_structured_status
    ⟨.ok "rtok", .ok "1700000000000", .ok ⟨some "atok", some "rtok2"⟩,
     .ok [sampleItemOther], .ok (), .ok (), .ok (),
     "20231105010000", "1700000400000"⟩
    (by refine ⟨?_, ?_, ?_, ?_, ?_, ?_, ?_⟩ <;> intro e h <;> simp at h)

/-! ## Theorems for C7: last-write-wins keyed by track URI -/

/-- Replacing the entries whose key is `k` does not change a lookup for a
different key `u`. -/
theorem find?_map_replace (k u : String) (v : TrackInfo) (hne : (k == u) = false)
    (d : List (String × TrackInfo)) :
    (d.map (fun p => if p.1 == k then (k, v) else p)).find? (fun p => p.1 == u) =
      d.find? (fun p => p.1 == u) := by
  induction d with
  | nil => rfl
  | cons q rest ih =>
    rw [List.map_cons]
    by_cases hq : (q.1 == k) = true
    · rw [if_pos hq]
      have hqu : (q.1 == u) = false := by rw [eq_of_beq hq]; exact hne
      simp only [List.find?, hne, hqu, ih]
    · rw [if_neg hq]
      by_cases hu : (q.1 == u) = true
      · simp only [List.find?, hu]
      · rw [Bool.not_eq_true] at hu
        simp only [List.find?, hu, ih]

/-- After `d[k] = v`, looking up `k` finds `(k, v)`. -/
theorem dictUpsert_find_self (d : List (String × TrackInfo)) (k : String) (v : TrackInfo) :
    (dictUpsert d k v).find? (fun p => p.1 == k) = some (k, v) := by
  unfold dictUpsert
  by_cases hany : d.any (fun p => p.1 == k) = true
  · rw [if_pos hany]
    induction d with
    | nil => cases hany
    | cons q rest ih =>
      by_cases hq : (q.1 == k) = true
      · simp only [List.map_cons, hq, if_true]
        exact List.find?_cons_of_pos _ (by simp)
      · simp only [List.map_cons, hq, if_false, Bool.false_eq_true]
        rw [List.find?_cons_of_neg _ (by simp [hq])]
        refine ih ?_
        simp only [List.any_cons, hq, Bool.false_or] at hany
        exact hany
  · rw [if_neg hany]
    have hnone : d.find? (fun p => p.1 == k) = none := by
      rw [List.find?_eq_none]
      intro p hp
      simp only [Bool.not_eq_true]
      rcases Bool.eq_false_or_eq_true (p.1 == k) with h | h
      · exact absurd (List.any_eq_true.mpr ⟨p, hp, h⟩) hany
      · exact h
    rw [List.find?_append, hnone, Option.none_or]
    simp

/-- After `d[k] = v`, lookups for keys other than `k` are unchanged. -/
theorem dictUpsert_find_other (d : List (String × TrackInfo)) (k u : String)
    (v : TrackInfo) (hne : (k == u) = false) :
    (dictUpsert d k v).find? (fun p => p.1 == u) = d.find? (fun p => p.1 == u) := by
  unfold dictUpsert
  by_cases hany : d.any (fun p => p.1 == k) = true
  · rw [if_pos hany]
    exact find?_map_replace k u v hne d
  · rw [if_neg hany, List.find?_append]
    have : List.find? (fun p => p.1 == u) [(k, v)] = none := by
      simp [hne]
    rw [this]
    cases d.find? (fun p => p.1 == u) <;> rfl

/-- The dictionary built by the `perform_etl` loop maps each URI to the
projection of the last event with that URI, and leaves the accumulator
lookup unchanged for URIs that do not occur. -/
theorem performEtlGo_find :
    ∀ (items : List RawItem) (acc d : List (String × TrackInfo)),
      performEtlGo acc items = .ok d → ∀ u : String,
      (items.reverse.find? (fun it => it.track.uri == u) = none →
        d.find? (fun p => p.1 == u) = acc.find? (fun p => p.1 == u)) ∧
      (∀ it, items.reverse.find? (fun it2 => it2.track.uri == u) = some it →
        ∃ info, projectItem it = .ok info ∧
          d.find? (fun p => p.1 == u) = some (u, info)) := by
  intro items
  induction items with
  | nil =>
    intro acc d h u
    simp only [performEtlGo, Except.ok.injEq] at h
    subst h
    exact ⟨fun _ => rfl, fun it hit => by simp at hit⟩
  | cons item rest ih =>
    intro acc d h u
    cases hpi : projectItem item with
    | error e => rw [performEtlGo, hpi] at h; cases h
    | ok info =>
      rw [performEtlGo, hpi] at h
      have IH := ih (dictUpsert acc item.track.uri info) d h u
      constructor
      · intro hnone
        rw [List.reverse_cons, List.find?_append] at hnone
        rcases hor : rest.reverse.find? (fun it => it.track.uri == u) with _ | it2
        · rw [hor, Option.none_or] at hnone
          have hitem : (item.track.uri == u) = false := by
            by_contra hcon
            rw [Bool.not_eq_false] at hcon
            simp [hcon] at hnone
          rw [IH.1 hor, dictUpsert_find_other _ _ _ _ hitem]
        · rw [hor] at hnone; cases hnone
      · intro it hit
        rw [List.reverse_cons, List.find?_append] at hit
        rcases hor : rest.reverse.find? (fun it2 => it2.track.uri == u) with _ | it2
        · rw [hor, Option.none_or] at hit
          have hp : (item.track.uri == u) = true := by
            by_contra hcon
            rw [Bool.not_eq_true] at hcon
            simp [hcon] at hit
          have hif : it = item := by
            simp [hp] at hit
            exact hit.symm
          subst hif
          have hu : it.track.uri = u := eq_of_beq hp
          refine ⟨info, hpi, ?_⟩
          rw [IH.1 hor, ← hu]
          exact dictUpsert_find_self _ _ _
        · rw [hor] at hit
          have : it2 = it := by
            simp only [Option.or_some, Option.some.injEq] at hit
            exact hit
          subst this
          exact IH.2 it2 hor

/-- C7: the intermediate mapping of one Transformer batch is keyed by
track URI, and when several events in the batch share a URI the record
derived from the last such event (in list order) is the one stored:
for every URI, the dictionary entry is exactly the projection of the
last event in the batch carrying that URI (and absent when no event
does). -/
theorem perform_etl_last_write_wins (json_data : List RawItem)
    (d : List (String × TrackInfo)) (h : perform_etl json_data = .ok d) (u : String) :
    (json_data.reverse.find? (fun it => it.track.uri == u) = none →
       d.find? (fun p => p.1 == u) = none) ∧
    (∀ it, json_data.reverse.find? (fun it2 => it2.track.uri == u) = some it →
       ∃ info, projectItem it = .ok info ∧
         d.find? (fun p => p.1 == u) = some (u, info)) := by
  have H := performEtlGo_find json_data [] d h u
  exact ⟨fun hn => by rw [H.1 hn]; rfl, H.2⟩

/-- Witness for C7: in a batch with two plays of the same track, the
stored record for that URI is the projection of the later play. -/
theorem perform_etl_last_write_wins_witness :
    ∃ info, projectItem sampleItemLater = .ok info ∧
      sampleEtlDict.find? (fun p => p.1 == "spotify:track:1") =
        some ("spotify:track:1", info) :=
  (perform_etl_last_write_wins [sampleItemEarlier, sampleItemLater] sampleEtlDict
      rfl "spotify:track:1").2 sampleItemLater (by decide)

/-! ## Theorems for C2: partitioning -/

/-- The bucket-update step keeps every key unchanged. -/
theorem addToPartitions_keys (ps : List (PartKey × List TrackRecord))
    (kv : String × TrackInfo)
    (hany : ps.any (fun p => p.1 == recordKey ⟨kv.1, kv.2⟩) = true) :
    (addToPartitions ps kv).map Prod.fst = ps.map Prod.fst := by
  unfold addToPartitions
  rw [if_pos hany, List.map_map]
  refine List.map_congr_left ?_
  intro p _
  by_cases hk : (p.1 == recordKey ⟨kv.1, kv.2⟩) = true <;>
    simp [Function.comp, hk]

/-- The bucket-update step preserves distinctness of the bucket keys. -/
theorem addToPartitions_nodupKeys (ps : List (PartKey × List TrackRecord))
    (kv : String × TrackInfo) (h : (ps.map Prod.fst).Nodup) :
    ((addToPartitions ps kv).map Prod.fst).Nodup := by
  by_cases hany : ps.any (fun p => p.1 == recordKey ⟨kv.1, kv.2⟩) = true
  · rw [addToPartitions_keys ps kv hany]; exact h
  · unfold addToPartitions
    rw [if_neg hany, List.map_append]
    refine List.Nodup.append h (List.nodup_singleton _) ?_
    intro a ha hb
    simp only [List.map_cons, List.map_nil, List.mem_singleton] at hb
    subst hb
    obtain ⟨p, hp, hpk⟩ := List.mem_map.mp ha
    exact hany (List.any_eq_true.mpr ⟨p, hp, beq_iff_eq.mpr hpk⟩)

/-- Appending a record to the unique bucket with its key adds exactly one
to the total record count. -/
theorem sumLen_map_update (k : PartKey) (r : TrackRecord) :
    ∀ ps : List (PartKey × List TrackRecord), (ps.map Prod.fst).Nodup →
      (∃ q ∈ ps, q.1 = k) →
      ((ps.map (fun p => if p.1 == k then (p.1, p.2 ++ [r]) else p)).map
          (fun p => p.2.length)).sum =
        (ps.map (fun p => p.2.length)).sum + 1 := by
  intro ps
  induction ps with
  | nil =>
    intro _ hex
    rcases hex with ⟨q, hq, _⟩
    cases hq
  | cons p0 rest ih =>
    intro hnd hex
    have hnd0 : p0.1 ∉ rest.map Prod.fst := by
      rw [List.map_cons, List.nodup_cons] at hnd
      exact hnd.1
    have hndr : (rest.map Prod.fst).Nodup := by
      rw [List.map_cons, List.nodup_cons] at hnd
      exact hnd.2
    rw [List.map_cons, List.map_cons, List.sum_cons, List.map_cons, List.sum_cons]
    by_cases h0 : (p0.1 == k) = true
    · rw [if_pos h0]
      have hid : rest.map (fun p => if p.1 == k then (p.1, p.2 ++ [r]) else p) = rest := by
        have hpt : ∀ p ∈ rest, (if p.1 == k then (p.1, p.2 ++ [r]) else p) = id p := by
          intro p hp
          have hkne : ¬((p.1 == k) = true) := by
            intro hcon
            exact hnd0 (List.mem_map.mpr ⟨p, hp, by rw [eq_of_beq hcon, eq_of_beq h0]⟩)
          rw [if_neg hkne]
          rfl
        rw [List.map_congr_left hpt, List.map_id]
      rw [hid]
      simp only [List.length_append, List.length_singleton]
      omega
    · rw [if_neg h0]
      have hex2 : ∃ q ∈ rest, q.1 = k := by
        rcases hex with ⟨q, hq, hqk⟩
        rcases List.mem_cons.mp hq with rfl | hq2
        · exact absurd (beq_iff_eq.mpr hqk) h0
        · exact ⟨q, hq2, hqk⟩
      rw [ih hndr hex2]
      omega

/-- Each processed record adds exactly one to the partition totals. -/
theorem addToPartitions_sumLen (ps : List (PartKey × List TrackRecord))
    (kv : String × TrackInfo) (h : (ps.map Prod.fst).Nodup) :
    ((addToPartitions ps kv).map (fun p => p.2.length)).sum =
      (ps.map (fun p => p.2.length)).sum + 1 := by
  unfold addToPartitions
  by_cases hany : ps.any (fun p => p.1 == recordKey ⟨kv.1, kv.2⟩) = true
  · rw [if_pos hany]
    obtain ⟨q, hq, hqk⟩ := List.any_eq_true.mp hany
    exact sumLen_map_update _ _ ps h ⟨q, hq, eq_of_beq hqk⟩
  · rw [if_neg hany]
    simp

/-- The bucket-update step keeps every stored record under the bucket
whose key is the (year, month) of its own `played_at`. -/
theorem addToPartitions_keyMatch (ps : List (PartKey × List TrackRecord))
    (kv : String × TrackInfo)
    (h : ∀ p ∈ ps, ∀ t ∈ p.2, p.1 = recordKey t) :
    ∀ p ∈ addToPartitions ps kv, ∀ t ∈ p.2, p.1 = recordKey t := by
  intro p hp t ht
  unfold addToPartitions at hp
  by_cases hany : ps.any (fun p => p.1 == recordKey ⟨kv.1, kv.2⟩) = true
  · rw [if_pos hany] at hp
    obtain ⟨q, hq, hfq⟩ := List.mem_map.mp hp
    by_cases hk : (q.1 == recordKey ⟨kv.1, kv.2⟩) = true
    · rw [if_pos hk] at hfq
      subst hfq
      rcases List.mem_append.mp ht with ht2 | ht2
      · exact h q hq t ht2
      · rw [List.mem_singleton] at ht2
        subst ht2
        exact eq_of_beq hk
    · rw [if_neg hk] at hfq
      subst hfq
      exact h q hq t ht
  · rw [if_neg hany] at hp
    rcases List.mem_append.mp hp with hp2 | hp2
    · exact h p hp2 t ht
    · rw [List.mem_singleton] at hp2
      subst hp2
      rw [List.mem_singleton] at ht
      subst ht
      rfl

/-- The processed record lands in a bucket carrying its own key. -/
theorem addToPartitions_mem_self (ps : List (PartKey × List TrackRecord))
    (kv : String × TrackInfo) :
    ∃ p ∈ addToPartitions ps kv, p.1 = recordKey ⟨kv.1, kv.2⟩ ∧
      (⟨kv.1, kv.2⟩ : TrackRecord) ∈ p.2 := by
  unfold addToPartitions
  by_cases hany : ps.any (fun p => p.1 == recordKey ⟨kv.1, kv.2⟩) = true
  · rw [if_pos hany]
    obtain ⟨q, hq, hqk⟩ := List.any_eq_true.mp hany
    refine ⟨(q.1, q.2 ++ [⟨kv.1, kv.2⟩]), ?_, eq_of_beq hqk, by simp⟩
    exact List.mem_map.mpr ⟨q, hq, by rw [if_pos hqk]⟩
  · rw [if_neg hany]
    exact ⟨(recordKey ⟨kv.1, kv.2⟩, [⟨kv.1, kv.2⟩]), by simp, rfl, by simp⟩

/-- Records already stored stay in a bucket with the same key. -/
theorem addToPartitions_mem_mono (ps : List (PartKey × List TrackRecord))
    (kv : String × TrackInfo) (p : PartKey × List TrackRecord) (hp : p ∈ ps)
    (t : TrackRecord) (ht : t ∈ p.2) :
    ∃ q ∈ addToPartitions ps kv, q.1 = p.1 ∧ t ∈ q.2 := by
  unfold addToPartitions
  by_cases hany : ps.any (fun p => p.1 == recordKey ⟨kv.1, kv.2⟩) = true
  · rw [if_pos hany]
    by_cases hk : (p.1 == recordKey ⟨kv.1, kv.2⟩) = true
    · exact ⟨(p.1, p.2 ++ [⟨kv.1, kv.2⟩]),
        List.mem_map.mpr ⟨p, hp, by rw [if_pos hk]⟩, rfl, List.mem_append_left _ ht⟩
    · exact ⟨p, List.mem_map.mpr ⟨p, hp, by rw [if_neg hk]⟩, rfl, ht⟩
  · rw [if_neg hany]
    exact ⟨p, List.mem_append_left _ hp, rfl, ht⟩

/-- Key distinctness is an invariant of the whole partition fold. -/
theorem partitionFold_nodupKeys (l : List (String × TrackInfo)) :
    ∀ acc : List (PartKey × List TrackRecord), (acc.map Prod.fst).Nodup →
      ((l.foldl addToPartitions acc).map Prod.fst).Nodup := by
  induction l with
  | nil => intro acc h; exact h
  | cons kv rest ih =>
    intro acc h
    exact ih _ (addToPartitions_nodupKeys _ _ h)

/-- The partition fold adds exactly the input length to the total. -/
theorem partitionFold_sumLen (l : List (String × TrackInfo)) :
    ∀ acc : List (PartKey × List TrackRecord), (acc.map Prod.fst).Nodup →
      ((l.foldl addToPartitions acc).map (fun p => p.2.length)).sum =
        (acc.map (fun p => p.2.length)).sum + l.length := by
  induction l with
  | nil => intro acc _; simp
  | cons kv rest ih =>
    intro acc h
    rw [List.foldl_cons, ih _ (addToPartitions_nodupKeys _ _ h),
      addToPartitions_sumLen _ _ h, List.length_cons]
    omega

/-- The key-match invariant holds along the whole partition fold. -/
theorem partitionFold_keyMatch (l : List (String × TrackInfo)) :
    ∀ acc : List (PartKey × List TrackRecord),
      (∀ p ∈ acc, ∀ t ∈ p.2, p.1 = recordKey t) →
      ∀ p ∈ l.foldl addToPartitions acc, ∀ t ∈ p.2, p.1 = recordKey t := by
  induction l with
  | nil => intro acc h; exact h
  | cons kv rest ih =>
    intro acc h
    exact ih _ (addToPartitions_keyMatch _ _ h)

/-- Stored records survive the rest of the fold in a same-key bucket. -/
theorem partitionFold_mem_mono (l : List (String × TrackInfo)) :
    ∀ acc (p : PartKey × List TrackRecord), p ∈ acc → ∀ t ∈ p.2,
      ∃ q ∈ l.foldl addToPartitions acc, q.1 = p.1 ∧ t ∈ q.2 := by
  induction l with
  | nil =>
    intro acc p hp t ht
    exact ⟨p, hp, rfl, ht⟩
  | cons kv rest ih =>
    intro acc p hp t ht
    obtain ⟨q, hq, hqk, hqt⟩ := addToPartitions_mem_mono acc kv p hp t ht
    obtain ⟨q2, hq2, hq2k, hq2t⟩ := ih _ q hq t hqt
    exact ⟨q2, hq2, hq2k.trans hqk, hq2t⟩

/-- Every input record ends up in a bucket carrying its own key. -/
theorem partitionFold_mem (l : List (String × TrackInfo)) :
    ∀ acc, ∀ kv ∈ l,
      ∃ q ∈ l.foldl addToPartitions acc,
        q.1 = recordKey ⟨kv.1, kv.2⟩ ∧ (⟨kv.1, kv.2⟩ : TrackRecord) ∈ q.2 := by
  induction l with
  | nil => intro acc kv hkv; cases hkv
  | cons kv0 rest ih =>
    intro acc kv hkv
    rcases List.mem_cons.mp hkv with rfl | hkv2
    · obtain ⟨p, hp, hpk, hpt⟩ := addToPartitions_mem_self acc kv
      obtain ⟨q, hq, hqk, hqt⟩ := partitionFold_mem_mono rest _ p hp _ hpt
      exact ⟨q, hq, hqk.trans hpk, hqt⟩
    · exact ih _ kv hkv2

/-- C2: `partition_spotify_data` places every record in exactly one
(year, month) bucket matching its own `played_at` (the bucket keys are
pairwise distinct and every bucket holds only records whose key it is),
the record counts over all partitions sum to the input count, and the
object path written for each bucket is
`processed/year=<Y>/month=<M>/<file>` for exactly that bucket key. -/
theorem partition_spotify_data_correct (track_data : List (String × TrackInfo)) :
    (((partition_spotify_data track_data).map (fun p => p.2.length)).sum =
      track_data.length) ∧
    (∀ p ∈ partition_spotify_data track_data, ∀ t ∈ p.2, p.1 = recordKey t) ∧
    (((partition_spotify_data track_data).map Prod.fst).Nodup) ∧
    (∀ kv ∈ track_data, ∃ p ∈ partition_spotify_data track_data,
      p.1 = recordKey ⟨kv.1, kv.2⟩ ∧ (⟨kv.1, kv.2⟩ : TrackRecord) ∈ p.2) ∧
    (∀ fileNames : PartKey → String, ∀ p ∈ partition_spotify_data track_data,
      ∀ t ∈ p.2, partitionS3Key p.1.1 p.1.2 (fileNames p.1) =
        "processed/year=" ++ (recordKey t).1 ++ "/month=" ++ (recordKey t).2 ++
          "/" ++ fileNames (recordKey t)) := by
  refine ⟨?_, ?_, ?_, ?_, ?_⟩
  · have := partitionFold_sumLen track_data [] (by simp)
    simpa [partition_spotify_data] using this
  · exact partitionFold_keyMatch track_data [] (by simp)
  · exact partitionFold_nodupKeys track_data [] (by simp)
  · intro kv hkv
    exact partitionFold_mem track_data [] kv hkv
  · intro fileNames p hp t ht
    have hk := partitionFold_keyMatch track_data [] (by simp) p hp t ht
    rw [partitionS3Key, hk]

/-- Witness for C2 at a concrete two-month batch. -/
theorem partition_spotify_data_correct_witness :
    (((partition_spotify_data sampleTrackData).map (fun p => p.2.length)).sum =
      sampleTrackData.length) ∧
    (∀ p ∈ partition_spotify_data sampleTrackData, ∀ t ∈ p.2, p.1 = recordKey t) ∧
    (((partition_spotify_data sampleTrackData).map Prod.fst).Nodup) ∧
    (∀ kv ∈ sampleTrackData, ∃ p ∈ partition_spotify_data sampleTrackData,
      p.1 = recordKey ⟨kv.1, kv.2⟩ ∧ (⟨kv.1, kv.2⟩ : TrackRecord) ∈ p.2) ∧
    (∀ fileNames : PartKey → String, ∀ p ∈ partition_spotify_data sampleTrackData,
      ∀ t ∈ p.2, partitionS3Key p.1.1 p.1.2 (fileNames p.1) =
        "processed/year=" ++ (recordKey t).1 ++ "/month=" ++ (recordKey t).2 ++
          "/" ++ fileNames (recordKey t)) :=
  partition_spotify_data_correct sampleTrackData

end Spotify
